import Mathlib

/-!
Shallow embedding of the dayboard backend core:
* the progressive income-tax estimator (`backend/internal/estimate/estimate.go`)
* the recurring-subscription detector (`backend/internal/plaid/client.go`)

Conventions of the embedding:
* Go `int` is modelled as `Int`; Go integer division truncates toward zero,
  which is `Int.tdiv`.
* Monetary amounts are integer cents; calendar dates are integer day numbers
  (the Go code parses dates at midnight and all date arithmetic is in whole
  days, so `time.Time` differences divided by 24h are exact day differences).
* The database rows feeding `EstimateTaxes` (standard deduction, federal and
  state bracket rows ordered by `bracket_low ASC`) are passed in as explicit
  arguments: the core consumes them as read-only data.
-/

/-- Go integer division: truncation toward zero. -/
def goDiv (a b : Int) : Int := a.tdiv b

/-- Go `abs` helper from `client.go`. -/
def goAbs (x : Int) : Int := if x < 0 then -x else x

namespace Estimate

/-- One row of `tax_tables_federal` / `tax_tables_state`:
`bracket_low`, `bracket_high`, `rate_bps`.  A `high` of `0` is the sentinel
for the unbounded top bracket. -/
structure Bracket where
  low : Int
  high : Int
  rateBps : Int
deriving Repr, DecidableEq

/-- `TaxResult` from `estimate.go`: all values in cents. -/
structure TaxResult where
  federalCents : Int
  stateCents : Int
  ficaCents : Int
  perPaycheckNetCents : Int
  termNetCents : Int
deriving Repr, DecidableEq

/-- The bracket-walk loop of `EstimateTaxes`, with the accumulated tax made
explicit.  For each row: stop when `remaining <= 0`; `upperBound` is the
row's high bound, or `taxableIncome` itself when `high == 0`;
`segment := min remaining (upperBound - low)`;
`tax += segment * rateBps / 10000`; `remaining -= segment`. -/
def bracketWalkAux (taxableIncome : Int) : List Bracket → Int → Int → Int
  | [], _, tax => tax
  | b :: bs, remaining, tax =>
    if remaining ≤ 0 then tax
    else
      let upperBound := if b.high = 0 then taxableIncome else b.high
      let segment := min remaining (upperBound - b.low)
      bracketWalkAux taxableIncome bs (remaining - segment)
        (tax + goDiv (segment * b.rateBps) 10000)

/-- Tax due on `taxableIncome` under the bracket rows `bs`
(rows already ordered by `bracket_low ASC`, as the SQL query returns them). -/
def bracketTax (bs : List Bracket) (taxableIncome : Int) : Int :=
  bracketWalkAux taxableIncome bs taxableIncome 0

/-- The list of `segment` values the bracket walk computes, in walk order.
Mirrors `bracketWalkAux` row for row; used to state the coverage property. -/
def bracketSegments (taxableIncome : Int) : List Bracket → Int → List Int
  | [], _ => []
  | b :: bs, remaining =>
    if remaining ≤ 0 then []
    else
      let upperBound := if b.high = 0 then taxableIncome else b.high
      let segment := min remaining (upperBound - b.low)
      segment :: bracketSegments taxableIncome bs (remaining - segment)

/-- The paycheck-count switch of `EstimateTaxes`:
`weekly → termWeeks`, `biweekly → termWeeks/2`, `monthly → termWeeks/4`,
default `termWeeks/2`. -/
def checksFor (payFreq : String) (termWeeks : Int) : Int :=
  if payFreq = "weekly" then termWeeks
  else if payFreq = "biweekly" then goDiv termWeeks 2
  else if payFreq = "monthly" then goDiv termWeeks 4
  else goDiv termWeeks 2

/-- `EstimateTaxes` from `estimate.go`.  The DB lookups are externalised:
`stdDeduction` is the `std_deduction_single` row for the year, and
`federalBrackets` / `stateBrackets` are the bracket rows the two queries
return (the state query returns `[]` when the year/state has no rows).
Returns `Except` in place of Go's `(*TaxResult, error)`. -/
def EstimateTaxes (stdDeduction : Int) (federalBrackets stateBrackets : List Bracket)
    (incomeCents : Int) (state : String) (filingStatus : String)
    (payFreq : String) (termWeeks : Int) : Except String TaxResult :=
  if filingStatus = "married" then
    .error "married filing jointly not yet supported"
  else if filingStatus ≠ "single" then
    .error ("unsupported filing status: " ++ filingStatus)
  else
    let taxableIncome := max (incomeCents - stdDeduction) 0
    let federalTax := bracketTax federalBrackets taxableIncome
    let stateTax := if state ≠ "" then bracketTax stateBrackets taxableIncome else 0
    let ficaTax := goDiv (incomeCents * 765) 10000
    let checks := checksFor payFreq termWeeks
    let totalTax := federalTax + stateTax + ficaTax
    let netAnnual := incomeCents - totalTax
    let perPay := if checks > 0 then goDiv netAnnual checks else 0
    .ok { federalCents := federalTax, stateCents := stateTax, ficaCents := ficaTax,
          perPaycheckNetCents := perPay, termNetCents := netAnnual }

/-- Well-formed bracket rows starting at lower bound `L`: each row's low bound
is the previous row's high bound, rows ascend, and the last row carries the
`high = 0` unbounded sentinel.  The empty tail is allowed so the predicate
can be stated recursively; coverage of `[0, ∞)` is `≠ [] ∧ wfFrom 0`. -/
def wfFrom : Int → List Bracket → Bool
  | _, [] => true
  | L, [b] => b.low == L && b.high == 0
  | L, b :: bs => b.low == L && decide (L < b.high) && wfFrom b.high bs

end Estimate

namespace Plaid

/-- `Transaction` from `plaid/client.go`.  `amount` is the charge amount
(the grouping key uses the amount printed to two decimals, i.e. exact cents,
so it is modelled as integer cents); `date` is a day number (the Go code
parses `"2006-01-02"` dates at midnight, so `Sub(...).Hours()/24` is the
exact whole-day difference). -/
structure Txn where
  id : String
  accountId : String
  amount : Int
  date : Int
  name : String
  merchantName : String
  category : List String
  pending : Bool
deriving Repr, DecidableEq, Inhabited

/-- `RecurringSubscription` from `plaid/client.go`. -/
structure RecurringSubscription where
  merchantName : String
  amount : Int
  frequency : String
  lastCharge : Int
  nextDue : Int
  category : List String
deriving Repr, DecidableEq

/-- `strings.ToLower`: lowercase every character.  (Stated by mapping over
the character list, which is what `String.toLower` does, so that it reduces
structurally.) -/
def lowerStr (s : String) : String := ⟨s.data.map Char.toLower⟩

/-- The grouping key `fmt.Sprintf("%s_%.2f", strings.ToLower(MerchantName), Amount)`:
lowercased merchant name paired with the exact amount. -/
def groupKey (t : Txn) : String × Int := (lowerStr t.merchantName, t.amount)

/-- Appending a transaction to its keyed group, preserving first-seen key
order (the embedding of `groups[key] = append(groups[key], txn)`). -/
def insertGrouped (k : String × Int) (t : Txn) :
    List ((String × Int) × List Txn) → List ((String × Int) × List Txn)
  | [] => [(k, [t])]
  | (k2, ts) :: rest =>
    if k2 = k then (k2, ts ++ [t]) :: rest else (k2, ts) :: insertGrouped k t rest

/-- The grouping loop of `DetectRecurringTransactions`: pending transactions
and negative amounts (income) are skipped, the rest are grouped by
`groupKey`. -/
def groupTxns (txns : List Txn) : List ((String × Int) × List Txn) :=
  txns.foldl (fun acc t =>
    if t.pending = true ∨ t.amount < 0 then acc else insertGrouped (groupKey t) t acc) []

/-- The in-place sort at the start of `isRecurring`: descending by date
(most recent first). -/
def sortDesc (ts : List Txn) : List Txn :=
  List.insertionSort (fun a b => b.date ≤ a.date) ts

/-- Day gaps between consecutive transactions of a (sorted) list:
`transactions[i-1].Date - transactions[i].Date`. -/
def intervalsOf : List Txn → List Int
  | t1 :: t2 :: rest => (t1.date - t2.date) :: intervalsOf (t2 :: rest)
  | _ => []

/-- The body of `isRecurring` after the in-place sort: fewer than 2
transactions are never recurring; otherwise every consecutive day gap must
be within 5 days of the average gap (integer average, truncating). -/
def isRecurringSorted (sorted : List Txn) : Bool :=
  if sorted.length < 2 then false
  else
    let intervals := intervalsOf sorted
    if intervals.length < 1 then false
    else
      let avg := goDiv intervals.sum (intervals.length : Int)
      intervals.all (fun i => decide (goAbs (i - avg) ≤ 5))

/-- `isRecurring` from `plaid/client.go`: sort descending by date, then test
the gaps. -/
def isRecurring (ts : List Txn) : Bool := isRecurringSorted (sortDesc ts)

/-- `determineFrequency` from `plaid/client.go`, applied (as in the Go code)
to the list already sorted most-recent-first: the average day gap over the
full span is `(first.date - last.date) / (count - 1)`, truncating;
`≤8 → weekly`, `≤35 → monthly`, `≤95 → quarterly`, else `yearly`. -/
def determineFrequency (sorted : List Txn) : String :=
  if sorted.length < 2 then "unknown"
  else
    let totalDays := (sorted.headD default).date - (sorted.getLastD default).date
    let avgDays := goDiv totalDays ((sorted.length : Int) - 1)
    if avgDays ≤ 8 then "weekly"
    else if avgDays ≤ 35 then "monthly"
    else if avgDays ≤ 95 then "quarterly"
    else "yearly"

/-- `predictNextDue` from `plaid/client.go` on a list sorted
most-recent-first: most recent date plus the truncated average gap.
(The Go `len < 2` branch returns `time.Now()`; it is unreachable from
`DetectRecurringTransactions`, which only calls this on groups of at least
2, and is modelled as day 0.) -/
def predictNextDue (sorted : List Txn) : Int :=
  if sorted.length < 2 then 0
  else
    let totalDays := (sorted.headD default).date - (sorted.getLastD default).date
    let avgDays := goDiv totalDays ((sorted.length : Int) - 1)
    (sorted.headD default).date + avgDays

/-- The per-group body of the detection loop in
`DetectRecurringTransactions`: drop groups smaller than 2, test
`isRecurring`, and build the subscription from the head of the date-sorted
group (the Go code sorts the slice in place inside `isRecurring`, so
`txns[0]` afterwards is the most recent transaction). -/
def detectStep (subs : List RecurringSubscription) (kv : (String × Int) × List Txn) :
    List RecurringSubscription :=
  if kv.2.length < 2 then subs
  else
    let sorted := sortDesc kv.2
    if isRecurringSorted sorted then
      subs ++ [{ merchantName := (sorted.headD default).merchantName,
                 amount := (sorted.headD default).amount,
                 frequency := determineFrequency sorted,
                 lastCharge := (sorted.headD default).date,
                 nextDue := predictNextDue sorted,
                 category := (sorted.headD default).category }]
    else subs

/-- `DetectRecurringTransactions` from `plaid/client.go`: group by merchant
and amount, then run the detection loop over the groups. -/
def DetectRecurringTransactions (txns : List Txn) : List RecurringSubscription :=
  (groupTxns txns).foldl detectStep []

/-- The average day gap over the full date span of a (sorted) group, as
computed by both `determineFrequency` and `predictNextDue`:
`(first.date - last.date) / (count - 1)`, truncating. -/
def avgGapOf (sorted : List Txn) : Int :=
  goDiv ((sorted.headD default).date - (sorted.getLastD default).date)
    ((sorted.length : Int) - 1)

/-- The four `frequency` values `determineFrequency` can return on a group
of at least 2 transactions (everything except the `"unknown"` fallback). -/
def goodFreq (s : RecurringSubscription) : Prop :=
  s.frequency = "weekly" ∨ s.frequency = "monthly" ∨
  s.frequency = "quarterly" ∨ s.frequency = "yearly"

end Plaid

namespace Estimate

theorem goDiv_zero_left (b : Int) : goDiv 0 b = 0 := Int.zero_tdiv b

/-- Unfolding of `EstimateTaxes` on the `"single"` path. -/
theorem estimate_single_eq (ded inc tw : Int) (fed st : List Bracket) (state pf : String) :
    EstimateTaxes ded fed st inc state "single" pf tw =
      .ok { federalCents := bracketTax fed (max (inc - ded) 0),
            stateCents := if state ≠ "" then bracketTax st (max (inc - ded) 0) else 0,
            ficaCents := goDiv (inc * 765) 10000,
            perPaycheckNetCents :=
              if checksFor pf tw > 0 then
                goDiv (inc - (bracketTax fed (max (inc - ded) 0) +
                  (if state ≠ "" then bracketTax st (max (inc - ded) 0) else 0) +
                  goDiv (inc * 765) 10000)) (checksFor pf tw)
              else 0,
            termNetCents := inc - (bracketTax fed (max (inc - ded) 0) +
              (if state ≠ "" then bracketTax st (max (inc - ded) 0) else 0) +
              goDiv (inc * 765) 10000) } := rfl

theorem checksFor_zero (pf : String) : checksFor pf 0 = 0 := by
  unfold checksFor
  split
  · rfl
  · split
    · exact goDiv_zero_left 2
    · split
      · exact goDiv_zero_left 4
      · exact goDiv_zero_left 2

/-- C1: end-to-end scenario A: income 5,200,000 cents, standard deduction
1,385,000 cents, one unbounded federal bracket at 2200 bps, one unbounded
state bracket at 500 bps, filing status single, biweekly pay over a 12-week
term yields federal 839,300, state 190,750, FICA 397,800, term net 3,772,150
and per-paycheck net 628,691 over 6 checks. -/
theorem estimate_scenarioA :
    EstimateTaxes 1385000 [⟨0, 0, 2200⟩] [⟨0, 0, 500⟩] 5200000 "CA" "single" "biweekly" 12 =
      .ok { federalCents := 839300, stateCents := 190750, ficaCents := 397800,
            perPaycheckNetCents := 628691, termNetCents := 3772150 } ∧
    checksFor "biweekly" 12 = 6 := by
  constructor <;> rfl

/-- C8: `EstimateTaxes` rejects every filing status other than `"single"`
and `"married"` with the invalid-input error `"unsupported filing status: …"`,
and rejects `"married"` with the distinct `"married filing jointly not yet
supported"` error; in both cases no `TaxResult` is produced. -/
theorem estimate_filing_status_errors (ded inc tw : Int) (fed st : List Bracket)
    (state pf fs : String) (h1 : fs ≠ "single") (h2 : fs ≠ "married") :
    EstimateTaxes ded fed st inc state fs pf tw =
      .error ("unsupported filing status: " ++ fs) ∧
    EstimateTaxes ded fed st inc state "married" pf tw =
      .error "married filing jointly not yet supported" := by
  constructor
  · unfold EstimateTaxes
    rw [if_neg h2, if_pos h1]
  · rfl

theorem estimate_filing_status_errors_witness :
    ("head" : String) ≠ "single" ∧ ("head" : String) ≠ "married" ∧
    (EstimateTaxes 0 [⟨0, 0, 1000⟩] [] 100000 "" "head" "weekly" 10 =
      .error ("unsupported filing status: " ++ "head") ∧
     EstimateTaxes 0 [⟨0, 0, 1000⟩] [] 100000 "" "married" "weekly" 10 =
      .error "married filing jointly not yet supported") :=
  ⟨by decide, by decide,
   estimate_filing_status_errors 0 100000 10 [⟨0, 0, 1000⟩] [] "" "weekly" "head"
     (by decide) (by decide)⟩

/-- C9: the paycheck count is `termWeeks` for weekly, `termWeeks/2` for
biweekly, `termWeeks/4` for monthly and `termWeeks/2` for any other pay
frequency, with truncating division; weekly with 12 term weeks gives exactly
12 checks, and a 0-week term gives 0 checks and a per-paycheck net of 0
without any division-by-zero failure. -/
theorem estimate_checks_and_zero_term (tw ded inc : Int) (fed st : List Bracket)
    (state pfOther pf : String)
    (hw : pfOther ≠ "weekly") (hb : pfOther ≠ "biweekly") (hm : pfOther ≠ "monthly") :
    checksFor "weekly" tw = tw ∧
    checksFor "biweekly" tw = goDiv tw 2 ∧
    checksFor "monthly" tw = goDiv tw 4 ∧
    checksFor pfOther tw = goDiv tw 2 ∧
    checksFor "weekly" 12 = 12 ∧
    (∃ r, EstimateTaxes ded fed st inc state "single" pf 0 = .ok r ∧
      r.perPaycheckNetCents = 0 ∧ checksFor pf 0 = 0) := by
  refine ⟨rfl, rfl, rfl, ?_, rfl, ?_⟩
  · unfold checksFor
    rw [if_neg hw, if_neg hb, if_neg hm]
  · refine ⟨_, estimate_single_eq ded inc 0 fed st state pf, ?_, checksFor_zero pf⟩
    simp [checksFor_zero pf]

theorem bracketSegments_cons (t : Int) (b : Bracket) (bs : List Bracket) (r : Int) :
    bracketSegments t (b :: bs) r =
      if r ≤ 0 then []
      else min r ((if b.high = 0 then t else b.high) - b.low) ::
        bracketSegments t bs (r - min r ((if b.high = 0 then t else b.high) - b.low)) := rfl

theorem bracketSegments_sum (t : Int) :
    ∀ (bs : List Bracket) (L r : Int), wfFrom L bs = true → bs ≠ [] → 0 ≤ L →
      r = max (t - L) 0 → (bracketSegments t bs r).sum = r := by
  intro bs
  induction bs with
  | nil => intro L r _ hne _ _; exact absurd rfl hne
  | cons b tail ih =>
    intro L r hwf _ hL hr
    by_cases hr0 : r ≤ 0
    · rw [bracketSegments_cons, if_pos hr0]
      simp only [List.sum_nil]; omega
    · cases tail with
      | nil =>
        simp only [wfFrom, Bool.and_eq_true, beq_iff_eq] at hwf
        obtain ⟨hlow, hhigh⟩ := hwf
        rw [bracketSegments_cons, if_neg hr0]
        simp only [hhigh, eq_self_iff_true, if_true, bracketSegments, List.sum_cons,
          List.sum_nil]
        omega
      | cons b2 tail2 =>
        simp only [wfFrom, Bool.and_eq_true, beq_iff_eq, decide_eq_true_eq] at hwf
        obtain ⟨⟨hlow, hlt⟩, hwf'⟩ := hwf
        rw [bracketSegments_cons, if_neg hr0]
        simp only [if_neg (show ¬ b.high = 0 by omega)]
        rw [List.sum_cons, ih b.high _ hwf' (by simp) (by omega) (by omega)]
        omega

/-- C2: for every taxable income ≥ 0 and every bracket table that covers
`[0, ∞)` — ascending, each low bound equal to the previous high bound,
first low bound 0, last high bound the 0 sentinel — the segments taxed by
the bracket walk of `EstimateTaxes` sum to exactly the taxable income. -/
theorem bracket_walk_coverage (t : Int) (bs : List Bracket) (ht : 0 ≤ t)
    (hne : bs ≠ []) (hwf : wfFrom 0 bs = true) :
    (bracketSegments t bs t).sum = t :=
  bracketSegments_sum t bs 0 t hwf hne le_rfl (by omega)

theorem bracket_walk_coverage_witness :
    0 ≤ (250000 : Int) ∧
    ([⟨0, 100000, 1000⟩, ⟨100000, 200000, 2000⟩, ⟨200000, 0, 3000⟩] : List Bracket) ≠ [] ∧
    wfFrom 0 [⟨0, 100000, 1000⟩, ⟨100000, 200000, 2000⟩, ⟨200000, 0, 3000⟩] = true ∧
    (bracketSegments 250000
      [⟨0, 100000, 1000⟩, ⟨100000, 200000, 2000⟩, ⟨200000, 0, 3000⟩] 250000).sum = 250000 :=
  ⟨by decide, by decide, by decide,
   bracket_walk_coverage 250000 _ (by decide) (by decide) (by decide)⟩

theorem estimate_checks_and_zero_term_witness :
    ("semimonthly" : String) ≠ "weekly" ∧
    (checksFor "weekly" 12 = 12 ∧
     ∃ r, EstimateTaxes 100 [⟨0, 0, 1000⟩] [] 5000 "" "single" "biweekly" 0 = .ok r ∧
       r.perPaycheckNetCents = 0 ∧ checksFor "biweekly" 0 = 0) :=
  ⟨by decide,
   (estimate_checks_and_zero_term 12 100 5000 [⟨0, 0, 1000⟩] [] "" "semimonthly" "biweekly"
      (by decide) (by decide) (by decide)).2.2.2.2⟩

theorem goDiv_nonneg {a b : Int} (ha : 0 ≤ a) (hb : 0 ≤ b) : 0 ≤ goDiv a b :=
  Int.tdiv_nonneg ha hb

theorem goDiv_mono {a b c : Int} (h0 : 0 ≤ a) (hab : a ≤ b) (hc : 0 < c) :
    goDiv a c ≤ goDiv b c := by
  unfold goDiv
  rw [Int.tdiv_eq_ediv h0 (le_of_lt hc), Int.tdiv_eq_ediv (le_trans h0 hab) (le_of_lt hc)]
  exact Int.ediv_le_ediv hc hab

theorem bracketWalkAux_cons (t : Int) (b : Bracket) (bs : List Bracket) (r tax : Int) :
    bracketWalkAux t (b :: bs) r tax =
      if r ≤ 0 then tax
      else bracketWalkAux t bs (r - min r ((if b.high = 0 then t else b.high) - b.low))
        (tax + goDiv (min r ((if b.high = 0 then t else b.high) - b.low) * b.rateBps) 10000) :=
  rfl

theorem bracketWalkAux_acc (t : Int) :
    ∀ (bs : List Bracket) (r tax : Int),
      bracketWalkAux t bs r tax = tax + bracketWalkAux t bs r 0 := by
  intro bs
  induction bs with
  | nil => intro r tax; simp [bracketWalkAux]
  | cons b tail ih =>
    intro r tax
    rw [bracketWalkAux_cons, bracketWalkAux_cons]
    by_cases hr : r ≤ 0
    · rw [if_pos hr, if_pos hr]; omega
    · rw [if_neg hr, if_neg hr, ih _ (tax + _), ih _ (0 + _)]
      omega

/-- The bracket walk's accumulated tax is exactly the truncated per-segment
tax of `bracketSegments`, segment paired with its bracket's rate: the
segments recorded by `bracketSegments` are the ones the walk taxes. -/
theorem bracketTax_eq_segments (t : Int) :
    ∀ (bs : List Bracket) (r tax : Int),
      bracketWalkAux t bs r tax = tax +
        ((bracketSegments t bs r).zip bs |>.map
          (fun p => goDiv (p.1 * p.2.rateBps) 10000)).sum := by
  intro bs
  induction bs with
  | nil => intro r tax; simp [bracketWalkAux, bracketSegments]
  | cons b tail ih =>
    intro r tax
    rw [bracketWalkAux_cons, bracketSegments_cons]
    by_cases hr : r ≤ 0
    · rw [if_pos hr, if_pos hr]; simp
    · rw [if_neg hr, if_neg hr, ih]
      simp only [List.zip_cons_cons, List.map_cons, List.sum_cons]
      omega

theorem bracketWalkAux_nonneg (t : Int) :
    ∀ (bs : List Bracket) (L r : Int), wfFrom L bs = true → 0 ≤ L →
      (∀ x ∈ bs, 0 ≤ x.rateBps) → r = max (t - L) 0 →
      0 ≤ bracketWalkAux t bs r 0 := by
  intro bs
  induction bs with
  | nil => intro L r _ _ _ _; simp [bracketWalkAux]
  | cons b tail ih =>
    intro L r hwf hL hrates hr
    by_cases hr0 : r ≤ 0
    · rw [bracketWalkAux_cons, if_pos hr0]
    · have hrate : 0 ≤ b.rateBps := hrates b (List.mem_cons_self b tail)
      cases tail with
      | nil =>
        simp only [wfFrom, Bool.and_eq_true, beq_iff_eq] at hwf
        obtain ⟨hlow, hhigh⟩ := hwf
        rw [bracketWalkAux_cons, if_neg hr0]
        simp only [hhigh, eq_self_iff_true, if_true]
        show 0 ≤ bracketWalkAux t [] _ _
        rw [bracketWalkAux_acc]
        simp only [bracketWalkAux]
        have hseg : 0 ≤ min r (t - b.low) := by omega
        have := goDiv_nonneg (mul_nonneg hseg hrate) (by norm_num : (0:Int) ≤ 10000)
        omega
      | cons b2 tail2 =>
        simp only [wfFrom, Bool.and_eq_true, beq_iff_eq, decide_eq_true_eq] at hwf
        obtain ⟨⟨hlow, hlt⟩, hwf2⟩ := hwf
        rw [bracketWalkAux_cons, if_neg hr0]
        simp only [if_neg (show ¬ b.high = 0 by omega)]
        rw [bracketWalkAux_acc]
        have hseg : 0 ≤ min r (b.high - b.low) := by omega
        have hdiv := goDiv_nonneg (mul_nonneg hseg hrate) (by norm_num : (0:Int) ≤ 10000)
        have hrec := ih b.high (r - min r (b.high - b.low)) hwf2 (by omega)
          (fun x hx => hrates x (List.mem_cons_of_mem b hx)) (by omega)
        omega

theorem bracketWalk_mono (ta tb : Int) (h0 : 0 ≤ ta) (hab : ta ≤ tb) :
    ∀ (bs : List Bracket) (L : Int), wfFrom L bs = true → 0 ≤ L →
      (∀ x ∈ bs, 0 ≤ x.rateBps) →
      bracketWalkAux ta bs (max (ta - L) 0) 0 ≤ bracketWalkAux tb bs (max (tb - L) 0) 0 := by
  intro bs
  induction bs with
  | nil => intro L _ _ _; simp [bracketWalkAux]
  | cons b tail ih =>
    intro L hwf hL hrates
    have hrate : 0 ≤ b.rateBps := hrates b (List.mem_cons_self b tail)
    by_cases hra : max (ta - L) 0 ≤ 0
    · rw [bracketWalkAux_cons, if_pos hra]
      exact bracketWalkAux_nonneg tb (b :: tail) L (max (tb - L) 0) hwf hL hrates rfl
    · have hrb : ¬ max (tb - L) 0 ≤ 0 := by omega
      cases tail with
      | nil =>
        simp only [wfFrom, Bool.and_eq_true, beq_iff_eq] at hwf
        obtain ⟨hlow, hhigh⟩ := hwf
        rw [bracketWalkAux_cons, bracketWalkAux_cons, if_neg hra, if_neg hrb]
        simp only [hhigh, eq_self_iff_true, if_true]
        show bracketWalkAux ta [] _ _ ≤ bracketWalkAux tb [] _ _
        simp only [bracketWalkAux, zero_add]
        have hsa : min (max (ta - L) 0) (ta - b.low) = ta - L := by omega
        have hsb : min (max (tb - L) 0) (tb - b.low) = tb - L := by omega
        rw [hsa, hsb]
        exact goDiv_mono (mul_nonneg (by omega) hrate)
          (mul_le_mul_of_nonneg_right (by omega) hrate) (by norm_num)
      | cons b2 tail2 =>
        simp only [wfFrom, Bool.and_eq_true, beq_iff_eq, decide_eq_true_eq] at hwf
        obtain ⟨⟨hlow, hlt⟩, hwf2⟩ := hwf
        rw [bracketWalkAux_cons ta b (b2 :: tail2), bracketWalkAux_cons tb b (b2 :: tail2),
          if_neg hra, if_neg hrb]
        simp only [if_neg (show ¬ b.high = 0 by omega)]
        rw [bracketWalkAux_acc, bracketWalkAux_acc _ _ _ (0 + _)]
        have hsa : max (ta - L) 0 - min (max (ta - L) 0) (b.high - b.low) =
            max (ta - b.high) 0 := by omega
        have hsb : max (tb - L) 0 - min (max (tb - L) 0) (b.high - b.low) =
            max (tb - b.high) 0 := by omega
        rw [hsa, hsb]
        have hrates2 : ∀ x ∈ b2 :: tail2, 0 ≤ x.rateBps :=
          fun x hx => hrates x (List.mem_cons_of_mem b hx)
        have hrec := ih b.high hwf2 (by omega) hrates2
        have hdiv : goDiv (min (max (ta - L) 0) (b.high - b.low) * b.rateBps) 10000 ≤
            goDiv (min (max (tb - L) 0) (b.high - b.low) * b.rateBps) 10000 :=
          goDiv_mono (mul_nonneg (by omega) hrate)
            (mul_le_mul_of_nonneg_right (by omega) hrate) (by norm_num)
        omega

theorem bracketTax_mono (bs : List Bracket) (ta tb : Int) (h0 : 0 ≤ ta) (hab : ta ≤ tb)
    (hwf : wfFrom 0 bs = true) (hrates : ∀ x ∈ bs, 0 ≤ x.rateBps) :
    bracketTax bs ta ≤ bracketTax bs tb := by
  have := bracketWalk_mono ta tb h0 hab bs 0 hwf le_rfl hrates
  rwa [show max (ta - 0) 0 = ta by omega, show max (tb - 0) 0 = tb by omega] at this

/-- C3: with the bracket tables, standard deduction, state, single filing
status, pay frequency and term fixed — the tables being well-formed with
non-negative rates — the total tax `federalCents + stateCents + ficaCents`
computed by `EstimateTaxes` is monotone non-decreasing in the annual income,
despite truncating integer division. -/
theorem estimate_total_tax_monotone (ded a b tw : Int) (fed st : List Bracket)
    (state pf : String) (ha : 0 ≤ a) (hab : a ≤ b)
    (hfwf : wfFrom 0 fed = true) (hfr : ∀ x ∈ fed, 0 ≤ x.rateBps)
    (hswf : wfFrom 0 st = true) (hsr : ∀ x ∈ st, 0 ≤ x.rateBps) :
    ∃ ra rb, EstimateTaxes ded fed st a state "single" pf tw = .ok ra ∧
      EstimateTaxes ded fed st b state "single" pf tw = .ok rb ∧
      ra.federalCents + ra.stateCents + ra.ficaCents ≤
        rb.federalCents + rb.stateCents + rb.ficaCents := by
  refine ⟨_, _, estimate_single_eq ded a tw fed st state pf,
    estimate_single_eq ded b tw fed st state pf, ?_⟩
  have hta : (0:Int) ≤ max (a - ded) 0 := le_max_right _ _
  have htab : max (a - ded) 0 ≤ max (b - ded) 0 := by omega
  have hfed := bracketTax_mono fed _ _ hta htab hfwf hfr
  have hstate : (if state ≠ "" then bracketTax st (max (a - ded) 0) else 0) ≤
      (if state ≠ "" then bracketTax st (max (b - ded) 0) else 0) := by
    split
    · exact bracketTax_mono st _ _ hta htab hswf hsr
    · exact le_rfl
  have hfica : goDiv (a * 765) 10000 ≤ goDiv (b * 765) 10000 :=
    goDiv_mono (by positivity) (by nlinarith) (by norm_num)
  simp only
  omega

theorem estimate_total_tax_monotone_witness :
    0 ≤ (3000000 : Int) ∧ (3000000 : Int) ≤ 5200000 ∧
    wfFrom 0 [⟨0, 1000000, 1000⟩, ⟨1000000, 0, 2200⟩] = true ∧
    (∃ ra rb,
      EstimateTaxes 1385000 [⟨0, 1000000, 1000⟩, ⟨1000000, 0, 2200⟩] [⟨0, 0, 500⟩]
        3000000 "CA" "single" "biweekly" 12 = .ok ra ∧
      EstimateTaxes 1385000 [⟨0, 1000000, 1000⟩, ⟨1000000, 0, 2200⟩] [⟨0, 0, 500⟩]
        5200000 "CA" "single" "biweekly" 12 = .ok rb ∧
      ra.federalCents + ra.stateCents + ra.ficaCents ≤
        rb.federalCents + rb.stateCents + rb.ficaCents) :=
  ⟨by decide, by decide, by decide,
   estimate_total_tax_monotone 1385000 3000000 5200000 12
     [⟨0, 1000000, 1000⟩, ⟨1000000, 0, 2200⟩] [⟨0, 0, 500⟩] "CA" "biweekly"
     (by decide) (by decide) (by decide)
     (by intro x hx; fin_cases hx <;> decide) (by decide)
     (by intro x hx; fin_cases hx <;> decide)⟩

end Estimate

namespace Plaid

theorem intervalsOf_length : ∀ ts : List Txn, (intervalsOf ts).length = ts.length - 1
  | [] => rfl
  | [_] => rfl
  | t1 :: t2 :: rest => by
    simp only [intervalsOf, List.length_cons, intervalsOf_length (t2 :: rest)]
    omega

/-- C4: a candidate group of at least 2 transactions is classified recurring
by the detector's `isRecurring` test if and only if every day gap between
consecutive transactions in date-descending order deviates from the
(truncated) average gap by at most 5 days in absolute value. -/
theorem isRecurring_iff_gaps (ts : List Txn) (h2 : 2 ≤ ts.length) :
    isRecurring ts = true ↔
      ∀ g ∈ intervalsOf (sortDesc ts),
        goAbs (g - goDiv (intervalsOf (sortDesc ts)).sum
          ((intervalsOf (sortDesc ts)).length : Int)) ≤ 5 := by
  have hlen : (sortDesc ts).length = ts.length := List.length_insertionSort _ ts
  have hil : 1 ≤ (intervalsOf (sortDesc ts)).length := by
    rw [intervalsOf_length]; omega
  simp only [isRecurring, isRecurringSorted,
    if_neg (show ¬ (sortDesc ts).length < 2 by omega),
    if_neg (show ¬ (intervalsOf (sortDesc ts)).length < 1 by omega),
    List.all_eq_true, decide_eq_true_eq]

theorem isRecurring_iff_gaps_witness :
    2 ≤ ([⟨"1", "a", 999, 100, "n", "Netflix", [], false⟩,
          ⟨"2", "a", 999, 130, "n", "Netflix", [], false⟩] : List Txn).length ∧
    (isRecurring [⟨"1", "a", 999, 100, "n", "Netflix", [], false⟩,
                  ⟨"2", "a", 999, 130, "n", "Netflix", [], false⟩] = true ↔
      ∀ g ∈ intervalsOf (sortDesc
          [⟨"1", "a", 999, 100, "n", "Netflix", [], false⟩,
           ⟨"2", "a", 999, 130, "n", "Netflix", [], false⟩]),
        goAbs (g - goDiv (intervalsOf (sortDesc
            [⟨"1", "a", 999, 100, "n", "Netflix", [], false⟩,
             ⟨"2", "a", 999, 130, "n", "Netflix", [], false⟩])).sum
          ((intervalsOf (sortDesc
            [⟨"1", "a", 999, 100, "n", "Netflix", [], false⟩,
             ⟨"2", "a", 999, 130, "n", "Netflix", [], false⟩])).length : Int)) ≤ 5) :=
  ⟨by decide, isRecurring_iff_gaps _ (by decide)⟩

theorem determineFrequency_eq (ts : List Txn) (h2 : 2 ≤ ts.length) :
    determineFrequency ts =
      if avgGapOf ts ≤ 8 then "weekly"
      else if avgGapOf ts ≤ 35 then "monthly"
      else if avgGapOf ts ≤ 95 then "quarterly"
      else "yearly" := by
  unfold determineFrequency avgGapOf
  rw [if_neg (by omega)]

/-- C6: for a group of at least 2 transactions (as every recurring group
is), with the average gap computed as the full span divided by `count - 1`
(truncating), the reported frequency is `"weekly"` for an average gap up to
8 days, `"monthly"` for 9 through 35, `"quarterly"` for 36 through 95, and
`"yearly"` from 96 days on. -/
theorem determineFrequency_boundaries (ts : List Txn) (h2 : 2 ≤ ts.length) :
    (avgGapOf ts ≤ 8 → determineFrequency ts = "weekly") ∧
    (9 ≤ avgGapOf ts → avgGapOf ts ≤ 35 → determineFrequency ts = "monthly") ∧
    (36 ≤ avgGapOf ts → avgGapOf ts ≤ 95 → determineFrequency ts = "quarterly") ∧
    (96 ≤ avgGapOf ts → determineFrequency ts = "yearly") := by
  rw [determineFrequency_eq ts h2]
  refine ⟨fun h => ?_, fun h h35 => ?_, fun h h95 => ?_, fun h => ?_⟩
  · rw [if_pos h]
  · rw [if_neg (by omega), if_pos h35]
  · rw [if_neg (by omega), if_neg (by omega), if_pos h95]
  · rw [if_neg (by omega), if_neg (by omega), if_neg (by omega)]

theorem determineFrequency_boundaries_witness :
    2 ≤ ([⟨"2", "a", 999, 135, "n", "Netflix", [], false⟩,
          ⟨"1", "a", 999, 100, "n", "Netflix", [], false⟩] : List Txn).length ∧
    9 ≤ avgGapOf [⟨"2", "a", 999, 135, "n", "Netflix", [], false⟩,
                  ⟨"1", "a", 999, 100, "n", "Netflix", [], false⟩] ∧
    avgGapOf [⟨"2", "a", 999, 135, "n", "Netflix", [], false⟩,
              ⟨"1", "a", 999, 100, "n", "Netflix", [], false⟩] ≤ 35 ∧
    determineFrequency [⟨"2", "a", 999, 135, "n", "Netflix", [], false⟩,
                        ⟨"1", "a", 999, 100, "n", "Netflix", [], false⟩] = "monthly" :=
  ⟨by decide, by decide, by decide,
   (determineFrequency_boundaries _ (by decide)).2.1 (by decide) (by decide)⟩

theorem pair_recurring (t1 t2 : Txn) : isRecurringSorted (sortDesc [t1, t2]) = true := by
  by_cases h : t2.date ≤ t1.date
  · have hs : sortDesc [t1, t2] = [t1, t2] := by
      simp [sortDesc, List.insertionSort, List.orderedInsert, h]
    rw [hs]
    simp [isRecurringSorted, intervalsOf, goDiv, Int.tdiv_one, goAbs]
  · have hs : sortDesc [t1, t2] = [t2, t1] := by
      simp [sortDesc, List.insertionSort, List.orderedInsert, h]
    rw [hs]
    simp [isRecurringSorted, intervalsOf, goDiv, Int.tdiv_one, goAbs]

/-- C5: the detector never reports a group of exactly 1 transaction as a
recurring subscription — the detection loop leaves any size-1 group
unreported, a one-element input yields no subscriptions, and `isRecurring`
is false on a singleton — while any two non-pending, non-negative
transactions sharing the same lowercased merchant name and amount are
always reported as one recurring subscription, whatever the gap between
their dates. -/
theorem detect_min_support (t1 t2 : Txn) (hp1 : t1.pending = false)
    (hp2 : t2.pending = false) (ha1 : 0 ≤ t1.amount) (ha2 : 0 ≤ t2.amount)
    (hk : groupKey t1 = groupKey t2) :
    (∀ (subs : List RecurringSubscription) (kv : (String × Int) × List Txn),
      kv.2.length = 1 → detectStep subs kv = subs) ∧
    DetectRecurringTransactions [t1] = [] ∧
    isRecurring [t1] = false ∧
    (DetectRecurringTransactions [t1, t2]).length = 1 := by
  have hc1 : ¬ (t1.pending = true ∨ t1.amount < 0) := by
    rw [hp1]; push_neg; exact ⟨by simp, by omega⟩
  have hc2 : ¬ (t2.pending = true ∨ t2.amount < 0) := by
    rw [hp2]; push_neg; exact ⟨by simp, by omega⟩
  refine ⟨?_, ?_, ?_, ?_⟩
  · intro subs kv h
    simp only [detectStep]
    rw [if_pos (by omega)]
  · simp [DetectRecurringTransactions, groupTxns, List.foldl, if_neg hc1,
      insertGrouped, detectStep]
  · simp [isRecurring, sortDesc, List.insertionSort, List.orderedInsert, isRecurringSorted]
  · simp only [DetectRecurringTransactions, groupTxns, List.foldl, if_neg hc1, if_neg hc2]
    rw [show insertGrouped (groupKey t1) t1 [] = [(groupKey t1, [t1])] from rfl]
    rw [show insertGrouped (groupKey t2) t2 [(groupKey t1, [t1])] =
        [(groupKey t1, [t1, t2])] by simp [insertGrouped, if_pos hk]]
    simp only [List.foldl, detectStep]
    rw [if_neg (by simp), if_pos (pair_recurring t1 t2)]
    simp

theorem detect_min_support_witness :
    (⟨"1", "a", 1599, 100, "n", "Hulu", [], false⟩ : Txn).pending = false ∧
    (⟨"2", "a", 1599, 201, "n", "HULU", [], false⟩ : Txn).pending = false ∧
    groupKey ⟨"1", "a", 1599, 100, "n", "Hulu", [], false⟩ =
      groupKey ⟨"2", "a", 1599, 201, "n", "HULU", [], false⟩ ∧
    (detectStep [] ((lowerStr "Hulu", 1599),
        [⟨"1", "a", 1599, 100, "n", "Hulu", [], false⟩]) = [] ∧
     DetectRecurringTransactions [⟨"1", "a", 1599, 100, "n", "Hulu", [], false⟩] = [] ∧
     isRecurring [⟨"1", "a", 1599, 100, "n", "Hulu", [], false⟩] = false ∧
     (DetectRecurringTransactions
       [⟨"1", "a", 1599, 100, "n", "Hulu", [], false⟩,
        ⟨"2", "a", 1599, 201, "n", "HULU", [], false⟩]).length = 1) :=
  ⟨rfl, rfl, by decide,
   (fun h => ⟨h.1 [] _ rfl, h.2.1, h.2.2.1, h.2.2.2⟩)
     (detect_min_support _ _ rfl rfl (by decide) (by decide) (by decide))⟩

theorem determineFrequency_mem (ts : List Txn) (h2 : 2 ≤ ts.length) :
    determineFrequency ts = "weekly" ∨ determineFrequency ts = "monthly" ∨
    determineFrequency ts = "quarterly" ∨ determineFrequency ts = "yearly" := by
  rw [determineFrequency_eq ts h2]
  split_ifs <;> simp

theorem detectStep_good (subs : List RecurringSubscription)
    (kv : (String × Int) × List Txn) (hacc : ∀ s ∈ subs, goodFreq s) :
    ∀ s ∈ detectStep subs kv, goodFreq s := by
  intro s hs
  simp only [detectStep] at hs
  by_cases hlen : kv.2.length < 2
  · rw [if_pos hlen] at hs; exact hacc s hs
  · rw [if_neg hlen] at hs
    by_cases hrec : isRecurringSorted (sortDesc kv.2) = true
    · rw [if_pos hrec] at hs
      rcases List.mem_append.mp hs with h | h
      · exact hacc s h
      · rcases List.mem_singleton.mp h with rfl
        have hslen : 2 ≤ (sortDesc kv.2).length := by
          rw [sortDesc, List.length_insertionSort]; omega
        exact determineFrequency_mem _ hslen
    · rw [if_neg hrec] at hs; exact hacc s hs

theorem foldl_detectStep_good :
    ∀ (groups : List ((String × Int) × List Txn)) (acc : List RecurringSubscription),
      (∀ s ∈ acc, goodFreq s) → ∀ s ∈ List.foldl detectStep acc groups, goodFreq s := by
  intro groups
  induction groups with
  | nil => intro acc hacc s hs; exact hacc s hs
  | cons kv rest ih =>
    intro acc hacc s hs
    simp only [List.foldl] at hs
    exact ih _ (detectStep_good acc kv hacc) s hs

/-- C10: every subscription the detector emits has frequency `"weekly"`,
`"monthly"`, `"quarterly"` or `"yearly"`; the `"unknown"` value is never
emitted, because every emitted group has at least 2 transactions and
`determineFrequency` returns `"unknown"` only below 2. -/
theorem detect_frequency_enum (txns : List Txn) (sub : RecurringSubscription)
    (hmem : sub ∈ DetectRecurringTransactions txns) :
    (sub.frequency = "weekly" ∨ sub.frequency = "monthly" ∨
     sub.frequency = "quarterly" ∨ sub.frequency = "yearly") ∧
    sub.frequency ≠ "unknown" := by
  have hg : goodFreq sub :=
    foldl_detectStep_good (groupTxns txns) [] (by simp) sub hmem
  refine ⟨hg, ?_⟩
  rcases hg with h | h | h | h <;> rw [h] <;> decide

theorem detect_frequency_enum_witness :
    ({ merchantName := "Netflix", amount := 1599, frequency := "monthly",
       lastCharge := 130, nextDue := 160, category := [] } : RecurringSubscription) ∈
      DetectRecurringTransactions
        [⟨"1", "a", 1599, 100, "n", "Netflix", [], false⟩,
         ⟨"2", "a", 1599, 130, "n", "Netflix", [], false⟩] ∧
    ((({ merchantName := "Netflix", amount := 1599, frequency := "monthly",
         lastCharge := 130, nextDue := 160, category := [] } :
          RecurringSubscription).frequency = "weekly" ∨
      ({ merchantName := "Netflix", amount := 1599, frequency := "monthly",
         lastCharge := 130, nextDue := 160, category := [] } :
          RecurringSubscription).frequency = "monthly" ∨
      ({ merchantName := "Netflix", amount := 1599, frequency := "monthly",
         lastCharge := 130, nextDue := 160, category := [] } :
          RecurringSubscription).frequency = "quarterly" ∨
      ({ merchantName := "Netflix", amount := 1599, frequency := "monthly",
         lastCharge := 130, nextDue := 160, category := [] } :
          RecurringSubscription).frequency = "yearly") ∧
     ({ merchantName := "Netflix", amount := 1599, frequency := "monthly",
        lastCharge := 130, nextDue := 160, category := [] } :
          RecurringSubscription).frequency ≠ "unknown") :=
  ⟨by decide,
   detect_frequency_enum
     [⟨"1", "a", 1599, 100, "n", "Netflix", [], false⟩,
      ⟨"2", "a", 1599, 130, "n", "Netflix", [], false⟩]
     { merchantName := "Netflix", amount := 1599, frequency := "monthly",
       lastCharge := 130, nextDue := 160, category := [] } (by decide)⟩

/-- C7: three non-pending transactions for merchant `"Spotify"` with the
same positive amount, dated 30 days apart each, are detected as exactly one
recurring subscription with frequency `"monthly"`, last charge equal to the
most recent of the three dates and next due date equal to that date plus 30
days. -/
theorem detect_spotify (d amt : Int) (hamt : 0 < amt)
    (i1 i2 i3 a1 a2 a3 n1 n2 n3 : String) (c1 c2 c3 : List String) :
    DetectRecurringTransactions
      [⟨i1, a1, amt, d, n1, "Spotify", c1, false⟩,
       ⟨i2, a2, amt, d + 30, n2, "Spotify", c2, false⟩,
       ⟨i3, a3, amt, d + 60, n3, "Spotify", c3, false⟩] =
      [{ merchantName := "Spotify", amount := amt, frequency := "monthly",
         lastCharge := d + 60, nextDue := d + 90, category := c3 }] := by
  have hna : ¬ (amt < 0) := by omega
  have hgrp : groupTxns
      [⟨i1, a1, amt, d, n1, "Spotify", c1, false⟩,
       ⟨i2, a2, amt, d + 30, n2, "Spotify", c2, false⟩,
       ⟨i3, a3, amt, d + 60, n3, "Spotify", c3, false⟩] =
      [((lowerStr "Spotify", amt),
        [⟨i1, a1, amt, d, n1, "Spotify", c1, false⟩,
         ⟨i2, a2, amt, d + 30, n2, "Spotify", c2, false⟩,
         ⟨i3, a3, amt, d + 60, n3, "Spotify", c3, false⟩])] := by
    simp [groupTxns, List.foldl, groupKey, insertGrouped, hna]
  have hsort : sortDesc
      [⟨i1, a1, amt, d, n1, "Spotify", c1, false⟩,
       ⟨i2, a2, amt, d + 30, n2, "Spotify", c2, false⟩,
       ⟨i3, a3, amt, d + 60, n3, "Spotify", c3, false⟩] =
      [⟨i3, a3, amt, d + 60, n3, "Spotify", c3, false⟩,
       ⟨i2, a2, amt, d + 30, n2, "Spotify", c2, false⟩,
       ⟨i1, a1, amt, d, n1, "Spotify", c1, false⟩] := by
    simp [sortDesc, List.insertionSort, List.orderedInsert,
      show ¬ (d + 60 ≤ d + 30) by omega, show ¬ (d + 60 ≤ d) by omega,
      show ¬ (d + 30 ≤ d) by omega]
  have hrec : isRecurringSorted
      [⟨i3, a3, amt, d + 60, n3, "Spotify", c3, false⟩,
       ⟨i2, a2, amt, d + 30, n2, "Spotify", c2, false⟩,
       ⟨i1, a1, amt, d, n1, "Spotify", c1, false⟩] = true := by
    simp [isRecurringSorted, intervalsOf,
      show d + 60 - (d + 30) = 30 by ring, show d + 30 - d = 30 by ring,
      show goDiv (30 + 30) 2 = 30 by decide, show goDiv 60 2 = 30 by decide, goAbs]
  have hfreq : determineFrequency
      [⟨i3, a3, amt, d + 60, n3, "Spotify", c3, false⟩,
       ⟨i2, a2, amt, d + 30, n2, "Spotify", c2, false⟩,
       ⟨i1, a1, amt, d, n1, "Spotify", c1, false⟩] = "monthly" := by
    simp [determineFrequency, List.headD, List.getLastD,
      show d + 60 - d = 60 by ring, show goDiv 60 2 = 30 by decide]
  have hdue : predictNextDue
      [⟨i3, a3, amt, d + 60, n3, "Spotify", c3, false⟩,
       ⟨i2, a2, amt, d + 30, n2, "Spotify", c2, false⟩,
       ⟨i1, a1, amt, d, n1, "Spotify", c1, false⟩] = d + 90 := by
    simp [predictNextDue, List.headD, List.getLastD,
      show d + 60 - d = 60 by ring, show goDiv 60 2 = 30 by decide]
    ring
  rw [DetectRecurringTransactions, hgrp]
  simp only [List.foldl, detectStep]
  rw [if_neg (by simp)]
  simp only [hsort]
  rw [if_pos hrec]
  simp [hfreq, hdue]

theorem detect_spotify_witness :
    0 < (999 : Int) ∧
    DetectRecurringTransactions
      [⟨"1", "a1", 999, 100, "n1", "Spotify", ["Service"], false⟩,
       ⟨"2", "a2", 999, 130, "n2", "Spotify", ["Service"], false⟩,
       ⟨"3", "a3", 999, 160, "n3", "Spotify", ["Service"], false⟩] =
      [{ merchantName := "Spotify", amount := 999, frequency := "monthly",
         lastCharge := 160, nextDue := 190, category := ["Service"] }] :=
  ⟨by decide,
   detect_spotify 100 999 (by decide) "1" "2" "3" "a1" "a2" "a3" "n1" "n2" "n3"
     ["Service"] ["Service"] ["Service"]⟩

end Plaid
